import Mathlib

/-!
Shallow embedding of the numeric core of the two dashboard apps:
the coin-flip sampling module (`LawOfLargeNumbers.py`) and the portfolio
projection module (`RoboAdvisor.py`).  Integer/float arithmetic of the
source is modelled over `ℚ` (exact, for the sampling module) and `ℝ`
(for the projection formulas, which involve a real 12th root).  The
Python `ZeroDivisionError` that float division by zero raises is
modelled by an `Option` result: `none` is the raised fault.
-/

namespace LawOfLargeNumbers

/-- Embedding of `run_simulation(n_flips, n_sims)`.  The source draws a
`(n_sims, n_flips)` matrix with `np.random.randint(0, 2, ...)`; the random
draw is made explicit as the function `randint : ℕ → ℕ → Fin 2` giving the
entry at row `i`, column `j`.  Row sums are the heads counts, and each
count is divided by `n_flips`. -/
def run_simulation (n_flips n_sims : ℕ) (randint : ℕ → ℕ → Fin 2) : List ℚ :=
  let results : ℕ → List ℕ := fun i => (List.range n_flips).map (fun j => (randint i j : ℕ))
  let heads_counts : List ℕ := (List.range n_sims).map (fun i => (results i).sum)
  heads_counts.map (fun c : ℕ => (c : ℚ) / (n_flips : ℚ))

end LawOfLargeNumbers

namespace RoboAdvisor

/-- `AVG_STOCK_RETURN = 0.08` from the source. -/
def AVG_STOCK_RETURN : ℝ := 0.08

/-- `AVG_BOND_RETURN = 0.03` from the source. -/
def AVG_BOND_RETURN : ℝ := 0.03

/-- The three risk-tolerance choices offered by the sidebar radio button. -/
inductive RiskProfile
  | Conservative
  | Moderate
  | Aggressive

/-- A row of the allocation table: stock and bond percentages. -/
structure Allocation where
  Stocks : ℕ
  Bonds : ℕ

/-- Embedding of the `ALLOCATION_STRATEGY` dictionary. -/
def ALLOCATION_STRATEGY : RiskProfile → Allocation
  | .Conservative => ⟨30, 70⟩
  | .Moderate => ⟨60, 40⟩
  | .Aggressive => ⟨90, 10⟩

/-- Embedding of `calculate_portfolio_return(risk_profile, stock_return, bond_return)`. -/
noncomputable def calculate_portfolio_return (risk_profile : RiskProfile)
    (stock_return bond_return : ℝ) : ℝ :=
  let allocation := ALLOCATION_STRATEGY risk_profile
  let stock_percent : ℝ := (allocation.Stocks : ℝ) / 100
  let bond_percent : ℝ := (allocation.Bonds : ℝ) / 100
  stock_percent * stock_return + bond_percent * bond_return

/-- `monthly_return = (1 + annual_return)**(1/12) - 1` from the source
(`**` with a non-integer exponent is real exponentiation). -/
noncomputable def monthly_return (annual_return : ℝ) : ℝ :=
  (1 + annual_return) ^ ((1 : ℝ) / 12) - 1

open Classical in
/-- The per-year future value of the twelve monthly contributions,
`monthly_contribution * (((1 + monthly_return)**12 - 1) / monthly_return)`.
Python float division raises `ZeroDivisionError` when the divisor is `0.0`,
hence the `Option`: `none` is the raised fault. -/
noncomputable def fv_contributions_this_year (monthly_contribution m : ℝ) : Option ℝ :=
  if m = 0 then none
  else some (monthly_contribution * (((1 + m) ^ (12 : ℕ) - 1) / m))

/-- The `for year in range(1, investment_horizon + 1)` loop of
`project_portfolio_growth`: each iteration compounds the running balance one
year at `annual_return`, adds the contributions' future value, and appends the
new balance.  A raised `ZeroDivisionError` (`none` from
`fv_contributions_this_year`) aborts the loop with no result. -/
noncomputable def growth_loop (monthly_contribution annual_return m current_value : ℝ) :
    ℕ → Option (List ℝ)
  | 0 => some []
  | Nat.succ n =>
    match fv_contributions_this_year monthly_contribution m with
    | none => none
    | some fv =>
      let next := current_value * (1 + annual_return) + fv
      match growth_loop monthly_contribution annual_return m next n with
      | none => none
      | some rest => some (next :: rest)

/-- Embedding of `project_portfolio_growth(initial_savings, monthly_contribution,
investment_horizon, annual_return)`.  Returns the pair
`(years, portfolio_values)` of the source: `years = np.arange(h + 1)` and
`portfolio_values` starting with the year-0 value `initial_savings` followed by
the values appended by the loop; `none` models the `ZeroDivisionError` raised
inside the loop when `annual_return == 0`. -/
noncomputable def project_portfolio_growth (initial_savings monthly_contribution : ℝ)
    (investment_horizon : ℕ) (annual_return : ℝ) : Option (List ℕ × List ℝ) :=
  let m := monthly_return annual_return
  (growth_loop monthly_contribution annual_return m initial_savings investment_horizon).map
    (fun vs => (List.range (investment_horizon + 1), initial_savings :: vs))

/-- The pure trajectory of the loop once the per-year contribution value `fv`
is fixed: the list of balances appended after year 0. -/
noncomputable def growth_list (annual_return fv current_value : ℝ) : ℕ → List ℝ
  | 0 => []
  | Nat.succ n =>
    (current_value * (1 + annual_return) + fv) ::
      growth_list annual_return fv (current_value * (1 + annual_return) + fv) n

/-! Supporting lemmas about the projection embedding. -/

lemma monthly_return_zero : monthly_return 0 = 0 := by
  simp [monthly_return, Real.one_rpow]

lemma monthly_return_nonneg {a : ℝ} (ha : 0 ≤ a) : 0 ≤ monthly_return a := by
  have h : (1 : ℝ) ≤ (1 + a) ^ ((1 : ℝ) / 12) :=
    Real.one_le_rpow (by linarith) (by norm_num)
  simp only [monthly_return]
  linarith

lemma monthly_return_pos {a : ℝ} (ha : 0 < a) : 0 < monthly_return a := by
  have h : (1 : ℝ) < (1 + a) ^ ((1 : ℝ) / 12) :=
    Real.one_lt_rpow (by linarith) (by norm_num)
  simp only [monthly_return]
  linarith

lemma monthly_return_4095 : monthly_return 4095 = 1 := by
  have h1 : ((4096 : ℝ)) = (2 : ℝ) ^ ((12 : ℕ) : ℝ) := by
    rw [Real.rpow_natCast]; norm_num
  have h2 : ((4096 : ℝ)) ^ ((1 : ℝ) / 12) = 2 := by
    rw [h1, ← Real.rpow_mul (by norm_num : (0 : ℝ) ≤ 2)]
    norm_num
  simp only [monthly_return]
  norm_num [h2]

lemma fv_contributions_of_ne (c m : ℝ) (hm : m ≠ 0) :
    fv_contributions_this_year c m = some (c * (((1 + m) ^ (12 : ℕ) - 1) / m)) := by
  simp [fv_contributions_this_year, hm]

lemma fv_contributions_of_zero (c : ℝ) : fv_contributions_this_year c 0 = none := by
  simp [fv_contributions_this_year]

lemma fv_value_nonneg {c m : ℝ} (hc : 0 ≤ c) (hm : 0 < m) :
    0 ≤ c * (((1 + m) ^ (12 : ℕ) - 1) / m) := by
  have h1 : (1 : ℝ) ≤ (1 + m) ^ (12 : ℕ) := one_le_pow₀ (by linarith)
  exact mul_nonneg hc (div_nonneg (by linarith) hm.le)

lemma growth_loop_of_ne (c a m : ℝ) (hm : m ≠ 0) (n : ℕ) :
    ∀ cur : ℝ, growth_loop c a m cur n
      = some (growth_list a (c * (((1 + m) ^ (12 : ℕ) - 1) / m)) cur n) := by
  induction n with
  | zero => intro cur; rfl
  | succ n ih =>
    intro cur
    rw [growth_loop, fv_contributions_of_ne c m hm]
    simp only [ih, growth_list]

lemma growth_loop_zero_rate (c a cur : ℝ) (n : ℕ) (hn : n ≠ 0) :
    growth_loop c a 0 cur n = none := by
  match n, hn with
  | Nat.succ k, _ => rw [growth_loop, fv_contributions_of_zero]

lemma growth_list_length (a fv : ℝ) (n : ℕ) :
    ∀ cur : ℝ, (growth_list a fv cur n).length = n := by
  induction n with
  | zero => intro cur; rfl
  | succ n ih => intro cur; simp [growth_list, ih]

lemma growth_list_getD_succ (a fv : ℝ) (n : ℕ) :
    ∀ (cur : ℝ) (i : ℕ), i < n →
      (cur :: growth_list a fv cur n).getD (i + 1) 0
        = (cur :: growth_list a fv cur n).getD i 0 * (1 + a) + fv := by
  induction n with
  | zero => intro cur i hi; exact absurd hi (Nat.not_lt_zero i)
  | succ n ih =>
    intro cur i hi
    match i with
    | 0 => simp [growth_list]
    | Nat.succ k =>
      have hk : k < n := by omega
      have h2 := ih (cur * (1 + a) + fv) k hk
      simpa [growth_list, List.getD_cons_succ] using h2

lemma growth_list_getD_nonneg {a fv : ℝ} (ha : 0 ≤ a) (hfv : 0 ≤ fv) (n : ℕ) :
    ∀ cur : ℝ, 0 ≤ cur → ∀ i : ℕ, 0 ≤ (cur :: growth_list a fv cur n).getD i 0 := by
  induction n with
  | zero =>
    intro cur hcur i
    match i with
    | 0 => simpa using hcur
    | Nat.succ k => simp [growth_list]
  | succ n ih =>
    intro cur hcur i
    match i with
    | 0 => simpa using hcur
    | Nat.succ k =>
      have hnext : 0 ≤ cur * (1 + a) + fv := by nlinarith
      have h2 := ih (cur * (1 + a) + fv) hnext k
      simpa [growth_list, List.getD_cons_succ] using h2

end RoboAdvisor

namespace LawOfLargeNumbers

lemma run_simulation_eq (n_flips n_sims : ℕ) (randint : ℕ → ℕ → Fin 2) :
    run_simulation n_flips n_sims randint
      = (List.range n_sims).map
          (fun i =>
            ((((List.range n_flips).map (fun j => (randint i j : ℕ))).sum : ℚ)
              / (n_flips : ℚ))) := by
  simp only [run_simulation, List.map_map]
  rfl

/-- C2: for every positive `numTrialsPerRun` and `numRuns`, `run_simulation`
returns exactly `numRuns` values, and every returned value lies in the closed
interval `[0, 1]`. -/
theorem C2_run_simulation_count_and_range (n_flips n_sims : ℕ)
    (randint : ℕ → ℕ → Fin 2) (hf : 0 < n_flips) (hs : 0 < n_sims) :
    (run_simulation n_flips n_sims randint).length = n_sims
      ∧ ∀ x ∈ run_simulation n_flips n_sims randint, 0 ≤ x ∧ x ≤ 1 := by
  rw [run_simulation_eq]
  constructor
  · simp
  · intro x hx
    obtain ⟨i, hi, rfl⟩ := List.mem_map.mp hx
    have hsum_le : ((List.range n_flips).map (fun j => ((randint i j : ℕ)))).sum ≤ n_flips := by
      have hb : ∀ x ∈ (List.range n_flips).map (fun j => ((randint i j : ℕ))), x ≤ 1 := by
        intro x hxm
        obtain ⟨j, hj, rfl⟩ := List.mem_map.mp hxm
        exact Nat.lt_succ_iff.mp (randint i j).isLt
      have h2 := List.sum_le_card_nsmul _ 1 hb
      simpa [smul_eq_mul] using h2
    constructor
    · positivity
    · rw [div_le_one (by exact_mod_cast hf)]
      exact_mod_cast hsum_le

/-- Witness for C2: at `numTrialsPerRun = 2`, `numRuns = 3` with every draw a
head, the hypotheses hold and the conclusion evaluates. -/
theorem C2_run_simulation_count_and_range_witness :
    0 < 2 ∧ 0 < 3
      ∧ ((run_simulation 2 3 (fun _ _ => 1)).length = 3
        ∧ ∀ x ∈ run_simulation 2 3 (fun _ _ => 1), 0 ≤ x ∧ x ≤ 1) :=
  ⟨by decide, by decide,
    C2_run_simulation_count_and_range 2 3 (fun _ _ => 1) (by decide) (by decide)⟩

/-- C6: the source performs no argument validation.  Called with the
out-of-range argument `numRuns = 0`, it returns an (empty) result normally
instead of raising a synchronous `InvalidArgument` error, contradicting the
claimed error contract. -/
theorem C6_run_simulation_no_invalid_argument_error :
    run_simulation 10 0 (fun _ _ => 0) = [] := rfl

/-- C9: the source exposes no seed.  Its output depends on the ambient draw of
the unseeded global generator: two calls with the identical arguments
`(10, 5)` but different ambient draws return different sequences, so the
result is not reproducible from the exposed arguments. -/
theorem C9_run_simulation_not_reproducible_from_arguments :
    run_simulation 10 5 (fun _ _ => 0) ≠ run_simulation 10 5 (fun _ _ => 1) := by
  simp [run_simulation, List.range_succ]

end LawOfLargeNumbers

namespace RoboAdvisor

/-- C1: the source does not special-case `annualReturn == 0`.  There
`monthly_return` is `0`, the annuity term divides by zero, and
`project_portfolio_growth(0, 100, 1, 0.0)` raises `ZeroDivisionError`
(modelled as `none`) instead of returning `[(0, 0.0), (1, 1200.0)]` as the
claim requires. -/
theorem C1_project_growth_zero_return_faults :
    project_portfolio_growth 0 100 1 0 = none := by
  simp only [project_portfolio_growth, monthly_return_zero]
  rw [growth_loop_zero_rate 100 0 0 1 one_ne_zero]
  rfl

/-- C3: whenever `project_portfolio_growth` returns a series, its years are
`0, 1, ..., horizonYears` in increasing order, and for each year `y ≥ 1` the
value is the previous year's value compounded once at `annual_return` plus the
annuity future value
`monthly_contribution * ((1 + monthly_return)^12 - 1) / monthly_return` of the
twelve monthly contributions. -/
theorem C3_project_growth_recurrence (initial c : ℝ) (h : ℕ) (a : ℝ)
    (years : List ℕ) (values : List ℝ)
    (hp : project_portfolio_growth initial c h a = some (years, values)) :
    years = List.range (h + 1)
      ∧ ∀ y : ℕ, 1 ≤ y → y ≤ h →
        values.getD y 0
          = values.getD (y - 1) 0 * (1 + a)
            + c * (((1 + monthly_return a) ^ (12 : ℕ) - 1) / monthly_return a) := by
  simp only [project_portfolio_growth] at hp
  by_cases hm : monthly_return a = 0
  · rw [hm] at hp
    cases h with
    | zero =>
      rw [show growth_loop c a 0 initial 0 = some [] from rfl] at hp
      simp only [Option.map_some', Option.some.injEq, Prod.mk.injEq] at hp
      obtain ⟨hy, hv⟩ := hp
      subst hy hv
      exact ⟨rfl, fun y hy1 hy2 => absurd (hy1.trans hy2) (by omega)⟩
    | succ k =>
      rw [growth_loop_zero_rate c a initial (k + 1) (Nat.succ_ne_zero k)] at hp
      simp at hp
  · rw [growth_loop_of_ne c a (monthly_return a) hm h initial] at hp
    simp only [Option.map_some', Option.some.injEq, Prod.mk.injEq] at hp
    obtain ⟨hy, hv⟩ := hp
    subst hy hv
    refine ⟨rfl, ?_⟩
    intro y hy1 hy2
    have hlt : y - 1 < h := by omega
    have hrec := growth_list_getD_succ a
      (c * (((1 + monthly_return a) ^ (12 : ℕ) - 1) / monthly_return a)) h initial (y - 1) hlt
    have hy' : y - 1 + 1 = y := by omega
    rw [hy'] at hrec
    exact hrec

/-- C4: for every valid projection input — nonnegative initial savings and
monthly contribution, integer horizon of at least one year — with the annual
return derived from a risk profile and the fixed asset-class constants, the
projection returns a value series of length `horizonYears + 1` whose year-0
entry equals the initial savings. -/
theorem C4_project_growth_length_and_year_zero (initial c : ℝ) (h : ℕ)
    (profile : RiskProfile) (h0 : 0 ≤ initial) (h1 : 0 ≤ c) (h2 : 1 ≤ h) :
    ∃ years values,
      project_portfolio_growth initial c h
          (calculate_portfolio_return profile AVG_STOCK_RETURN AVG_BOND_RETURN)
        = some (years, values)
      ∧ values.length = h + 1 ∧ values.getD 0 0 = initial := by
  have ha : 0 < calculate_portfolio_return profile AVG_STOCK_RETURN AVG_BOND_RETURN := by
    cases profile <;>
      norm_num [calculate_portfolio_return, ALLOCATION_STRATEGY,
        AVG_STOCK_RETURN, AVG_BOND_RETURN]
  have hm : monthly_return (calculate_portfolio_return profile AVG_STOCK_RETURN AVG_BOND_RETURN)
      ≠ 0 := ne_of_gt (monthly_return_pos ha)
  refine ⟨List.range (h + 1),
    initial ::
      growth_list (calculate_portfolio_return profile AVG_STOCK_RETURN AVG_BOND_RETURN)
        (c * (((1 + monthly_return
              (calculate_portfolio_return profile AVG_STOCK_RETURN AVG_BOND_RETURN)) ^ (12 : ℕ)
            - 1)
          / monthly_return (calculate_portfolio_return profile AVG_STOCK_RETURN AVG_BOND_RETURN)))
        initial h, ?_, ?_, ?_⟩
  · simp only [project_portfolio_growth]
    rw [growth_loop_of_ne _ _ _ hm h initial]
    rfl
  · simp [growth_list_length]
  · rfl

/-- C5 counterexample: the claimed concrete value is wrong:
`expectedReturn("Conservative", 0.08, 0.03)` computes to `0.045`
(`= 0.30 * 0.08 + 0.70 * 0.03`), not `0.051`. -/
theorem C5_expected_return_conservative_value_not_0051 :
    calculate_portfolio_return .Conservative 0.08 0.03 ≠ 0.051 := by
  norm_num [calculate_portfolio_return, ALLOCATION_STRATEGY]

/-- C5 (amended): `expectedReturn(profile, stockReturn, bondReturn)` is the
weighted sum `stockWeight/100 * stockReturn + bondWeight/100 * bondReturn`
with the profile's fixed weights, and
`expectedReturn("Conservative", 0.08, 0.03) = 0.30 * 0.08 + 0.70 * 0.03
= 0.045`. -/
theorem C5_expected_return_weighted_sum :
    (∀ s b : ℝ, calculate_portfolio_return .Conservative s b = 30 / 100 * s + 70 / 100 * b)
    ∧ (∀ s b : ℝ, calculate_portfolio_return .Moderate s b = 60 / 100 * s + 40 / 100 * b)
    ∧ (∀ s b : ℝ, calculate_portfolio_return .Aggressive s b = 90 / 100 * s + 10 / 100 * b)
    ∧ calculate_portfolio_return .Conservative 0.08 0.03 = 0.045 := by
  refine ⟨fun s b => ?_, fun s b => ?_, fun s b => ?_, ?_⟩ <;>
    norm_num [calculate_portfolio_return, ALLOCATION_STRATEGY]

/-- C7: with nonnegative initial savings, monthly contribution and annual
return, any value series the projection returns is non-decreasing from each
year to the next. -/
theorem C7_project_growth_nondecreasing (initial c : ℝ) (h : ℕ) (a : ℝ)
    (years : List ℕ) (values : List ℝ)
    (h0 : 0 ≤ initial) (h1 : 0 ≤ c) (h2 : 1 ≤ h) (ha : 0 ≤ a)
    (hp : project_portfolio_growth initial c h a = some (years, values)) :
    ∀ y : ℕ, y + 1 < values.length → values.getD y 0 ≤ values.getD (y + 1) 0 := by
  simp only [project_portfolio_growth] at hp
  by_cases hm : monthly_return a = 0
  · rw [hm, growth_loop_zero_rate c a initial h (by omega)] at hp
    simp at hp
  · have hmpos : 0 < monthly_return a :=
      lt_of_le_of_ne (monthly_return_nonneg ha) (Ne.symm hm)
    rw [growth_loop_of_ne c a (monthly_return a) hm h initial] at hp
    simp only [Option.map_some', Option.some.injEq, Prod.mk.injEq] at hp
    obtain ⟨hy, hv⟩ := hp
    subst hv
    intro y hlen
    have hfv : 0 ≤ c * (((1 + monthly_return a) ^ (12 : ℕ) - 1) / monthly_return a) :=
      fv_value_nonneg h1 hmpos
    simp only [List.length_cons, growth_list_length] at hlen
    have hlt : y < h := by omega
    have hrec := growth_list_getD_succ a
      (c * (((1 + monthly_return a) ^ (12 : ℕ) - 1) / monthly_return a)) h initial y hlt
    have hnn := growth_list_getD_nonneg ha hfv h initial h0 y
    rw [hrec]
    nlinarith [mul_nonneg hnn ha]

/-- C8: for each of the three risk profiles, the fixed stock and bond weights
in the allocation table sum to exactly 100. -/
theorem C8_allocation_weights_sum_to_100 :
    ∀ p : RiskProfile, (ALLOCATION_STRATEGY p).Stocks + (ALLOCATION_STRATEGY p).Bonds = 100 := by
  intro p
  cases p <;> rfl

/-- C10: whenever the stock return strictly exceeds the bond return, the
expected portfolio return strictly increases across the profiles in the order
Conservative, Moderate, Aggressive. -/
theorem C10_expected_return_strictly_increasing (s b : ℝ) (hsb : b < s) :
    calculate_portfolio_return .Conservative s b < calculate_portfolio_return .Moderate s b
      ∧ calculate_portfolio_return .Moderate s b
          < calculate_portfolio_return .Aggressive s b := by
  simp only [calculate_portfolio_return, ALLOCATION_STRATEGY]
  norm_num
  constructor <;> linarith

/-- Concrete evaluation of the projection at `annual_return = 4095`, where the
monthly rate is exactly `1`: one year starting from `0` with contribution `1`
yields the value `(1 + 1)^12 - 1 = 4095`. -/
lemma project_growth_eval_from_zero :
    project_portfolio_growth 0 1 1 4095 = some (List.range 2, [(0 : ℝ), 4095]) := by
  simp only [project_portfolio_growth, monthly_return_4095]
  rw [growth_loop_of_ne 1 4095 1 one_ne_zero 1 0]
  norm_num [growth_list]

/-- Concrete evaluation of the projection at `annual_return = 4095` starting
from `1`: the year-1 value is `1 * 4096 + 4095 = 8191`. -/
lemma project_growth_eval_from_one :
    project_portfolio_growth 1 1 1 4095 = some (List.range 2, [(1 : ℝ), 8191]) := by
  simp only [project_portfolio_growth, monthly_return_4095]
  rw [growth_loop_of_ne 1 4095 1 one_ne_zero 1 1]
  norm_num [growth_list]

/-- Witness for C3 at `(0, 1, 1, 4095)`, evaluating the returned series and
its recurrence concretely. -/
theorem C3_project_growth_recurrence_witness :
    project_portfolio_growth 0 1 1 4095 = some (List.range 2, [(0 : ℝ), 4095])
      ∧ (List.range 2 = List.range (1 + 1)
        ∧ ∀ y : ℕ, 1 ≤ y → y ≤ 1 →
          ([(0 : ℝ), 4095]).getD y 0
            = ([(0 : ℝ), 4095]).getD (y - 1) 0 * (1 + 4095)
              + 1 * (((1 + monthly_return 4095) ^ (12 : ℕ) - 1) / monthly_return 4095)) :=
  ⟨project_growth_eval_from_zero,
    C3_project_growth_recurrence 0 1 1 4095 (List.range 2) [0, 4095]
      project_growth_eval_from_zero⟩

/-- Witness for C4 at `initial = 0`, `contribution = 0`, `horizon = 1`,
Conservative profile. -/
theorem C4_project_growth_length_and_year_zero_witness :
    (0 : ℝ) ≤ 0 ∧ (0 : ℝ) ≤ 0 ∧ 1 ≤ 1
      ∧ ∃ years values,
          project_portfolio_growth 0 0 1
              (calculate_portfolio_return .Conservative AVG_STOCK_RETURN AVG_BOND_RETURN)
            = some (years, values)
          ∧ values.length = 1 + 1 ∧ values.getD 0 0 = 0 :=
  ⟨le_refl 0, le_refl 0, le_refl 1,
    C4_project_growth_length_and_year_zero 0 0 1 .Conservative
      (le_refl 0) (le_refl 0) (le_refl 1)⟩

/-- Witness for C7 at `(1, 1, 1, 4095)`: the concrete series `[1, 8191]` is
non-decreasing. -/
theorem C7_project_growth_nondecreasing_witness :
    (0 : ℝ) ≤ 1 ∧ (0 : ℝ) ≤ 1 ∧ 1 ≤ 1 ∧ (0 : ℝ) ≤ 4095
      ∧ project_portfolio_growth 1 1 1 4095 = some (List.range 2, [(1 : ℝ), 8191])
      ∧ ∀ y : ℕ, y + 1 < ([(1 : ℝ), 8191]).length →
          ([(1 : ℝ), 8191]).getD y 0 ≤ ([(1 : ℝ), 8191]).getD (y + 1) 0 :=
  ⟨by norm_num, by norm_num, le_refl 1, by norm_num, project_growth_eval_from_one,
    C7_project_growth_nondecreasing 1 1 1 4095 (List.range 2) [1, 8191]
      (by norm_num) (by norm_num) (le_refl 1) (by norm_num) project_growth_eval_from_one⟩

/-- Witness for C10 at `s = 1 > b = 0`. -/
theorem C10_expected_return_strictly_increasing_witness :
    (0 : ℝ) < 1
      ∧ (calculate_portfolio_return .Conservative 1 0 < calculate_portfolio_return .Moderate 1 0
        ∧ calculate_portfolio_return .Moderate 1 0
            < calculate_portfolio_return .Aggressive 1 0) :=
  ⟨by norm_num, C10_expected_return_strictly_increasing 1 0 (by norm_num)⟩

end RoboAdvisor
